import Mathlib

/-!
Verification of the codecrafters-docker-go repository (a minimal docker:
pull an image from the Docker registry, unpack its layers into a temp
directory, chroot + new PID namespace, run a command, forward output and
exit code).

Shallow embedding: the relevant Go functions from `app/main.go`,
`app/docker_image_downloader.go` and the container-environment file are
translated into Lean definitions.  Network, filesystem and OS effects are
modelled by explicit parameters (oracles) or by event traces.
-/

namespace Docker

/-! ## Image reference parsing (`NewDockerImageDownloader`,
    docker_image_downloader.go lines 65-94)

Go strings are modelled as `List Char`.  `strings.SplitN(s, ":", 2)`
splits at the first colon only; we embed it via `splitFirst`, which
returns the part before the first colon and the remainder after it,
or `none` when the string has no colon (in which case Go's SplitN
returns the one-element list `[s]`). -/

/-- Split a Go string at the first `':'`: `splitFirst s = some (a, b)`
when `s = a ++ ':' :: b` with `':' ∉ a`; `none` when `s` has no colon.
This is exactly the information content of `strings.SplitN(s, ":", 2)`. -/
def splitFirst : List Char → Option (List Char × List Char)
  | [] => none
  | c :: cs =>
    if c = ':' then some ([], cs)
    else (splitFirst cs).map (fun p => (c :: p.1, p.2))

/-- `NewDockerImageDownloader` (docker_image_downloader.go lines 65-94),
restricted to its parsing of the `image[:tag]` token.
Go code: `parts := strings.SplitN(imageAndTag, ":", 2)`;
error when `len(parts) == 0 || parts[0] == ""`; `image := parts[0]`;
`tag := "latest"`; `if len(parts) > 1 && parts[1] != "" { tag = parts[1] }`.
Returns `none` on the error path, otherwise `some (image, tag)`. -/
def parseImageTag (s : List Char) : Option (List Char × List Char) :=
  match splitFirst s with
  | none => if s.isEmpty then none else some (s, "latest".toList)
  | some (name, tag) =>
    if name.isEmpty then none
    else some (name, if tag.isEmpty then "latest".toList else tag)

/-! ## Device number encoding (`mkdev`, main.go lines 157-159)

`func (env *ContainerEnvironment) mkdev(major, minor uint32) uint64 {
   return (uint64(major) << 8) | uint64(minor) }`
The arguments are `uint32`, so after widening to `uint64` neither the
shift by 8 nor the or can overflow 2^64; plain `Nat` arithmetic on
inputs below 2^32 is therefore exact. -/

/-- `mkdev` (main.go lines 157-159): `(uint64(major) << 8) | uint64(minor)`. -/
def mkdev (major minor : Nat) : Nat :=
  ((major % 2 ^ 32) <<< 8) ||| (minor % 2 ^ 32)

/-- Modelled from the spec: the host kernel's device-node creation
primitive (`mknod(2)`, an external OS collaborator not part of this
repository) expects the glibc `makedev` encoding of a `dev_t`:
`(minor & 0xff) | ((major & 0xfff) << 8) | ((minor & ~0xff) << 12)
 | ((major & ~0xfff) << 32)` — minor in the low bits, major in the
bits above, exactly as the spec describes ("major in high bits, minor
in low bits"). -/
def linuxMakedev (major minor : Nat) : Nat :=
  (minor &&& 0xff) ||| ((major &&& 0xfff) <<< 8) |||
    ((minor >>> 8) <<< 20) ||| ((major >>> 12) <<< 32)

/-! ## Registry client state and token refresh
    (`refreshToken`, docker_image_downloader.go lines 97-136)

Time is modelled as an integer number of seconds; `time.Now()` is the
explicit parameter `now`.  The network fetch of the token endpoint is the
explicit parameter `fetch : Except Unit tokenResponse` (`.error` for any
request/HTTP/decode failure, whose precise value the claim does not
touch).  The result carries the number of network fetches performed (0
or 1) so that "no-op" and "exactly one re-fetch" are statable. -/

/-- The fields of Go's `tokenResponse` used by `refreshToken`
(docker_image_downloader.go lines 30-35): it stores `token.Token` and
uses `token.ExpiresIn`. -/
structure tokenResponse where
  token : List Char
  expiresIn : Int
deriving DecidableEq, Repr

/-- The token-related mutable state of `DockerImageDownloader`
(docker_image_downloader.go lines 20-27): `token string`,
`tokenExp time.Time`. -/
structure DLState where
  token : List Char
  tokenExp : Int
deriving DecidableEq, Repr

/-- `refreshToken` (docker_image_downloader.go lines 97-136).
Go: `if dl.token != "" && time.Now().Before(dl.tokenExp) { return nil }`
(`Before` is strict `<`); otherwise fetch the token endpoint, and on
success set `dl.token = token.Token` and
`dl.tokenExp = now + (ExpiresIn - 60)` seconds when `ExpiresIn > 0`,
else `now + 3600` (one hour default).  Returns the new state together
with the number of network fetches performed. -/
def refreshToken (now : Int) (st : DLState) (fetch : Except Unit tokenResponse) :
    Except Unit (DLState × Nat) :=
  if st.token ≠ [] ∧ now < st.tokenExp then .ok (st, 0)
  else
    match fetch with
    | .error e => .error e
    | .ok tr =>
      .ok ({ token := tr.token,
             tokenExp := if 0 < tr.expiresIn then now + (tr.expiresIn - 60)
                         else now + 3600 }, 1)

/-! ## Registry request URLs (docker_image_downloader.go lines 103, 144,
    196, 259)

Each `fmt.Sprintf` URL builder is embedded as string concatenation; the
image name is the single interpolated value (plus the tag/digest for the
manifest and blob endpoints). -/

/-- Token endpoint URL (docker_image_downloader.go line 103):
`https://auth.docker.io/token?service=registry.docker.io&scope=repository:library/%s:pull`. -/
def tokenURL (image : String) : String :=
  "https://auth.docker.io/token?service=registry.docker.io&scope=repository:library/"
    ++ image ++ ":pull"

/-- Manifest endpoint URL (docker_image_downloader.go lines 144 and 196,
identical format string; `ref` is the tag in `getDigests` and the
platform manifest digest in `getLayers`):
`https://registry.hub.docker.com/v2/library/%s/manifests/%s`. -/
def manifestURL (image ref : String) : String :=
  "https://registry.hub.docker.com/v2/library/" ++ image ++ "/manifests/" ++ ref

/-- Blob endpoint URL (docker_image_downloader.go line 259):
`https://registry.hub.docker.com/v2/library/%s/blobs/%s`. -/
def blobURL (image digest : String) : String :=
  "https://registry.hub.docker.com/v2/library/" ++ image ++ "/blobs/" ++ digest

/-! ## Manifest resolution (`getDigests` / `getLayers`,
    docker_image_downloader.go lines 139-222)

The HTTP body of the manifest request is modelled by its two JSON decode
outcomes, mirroring the Go code which first tries
`json.Unmarshal(bodyBytes, &manifests)` (a `manifestList`) and then
`json.Unmarshal(bodyBytes, &layers)` (a `layersList`):
`fanoutDec` is `some ms` when the manifest-list decode succeeds with
entries `ms`, and `layersDec` is the direct-layers decode outcome.
The nested manifest fetch performed by `getLayers` for the selected
digest is modelled by an oracle `resp : String → LayersResp` giving the
HTTP/decode outcome of `getLayers` for each digest. -/

/-- A `manifestEntry` (docker_image_downloader.go lines 38-46), restricted
to the fields `getDigests` reads: `Digest`, `Platform.OS`,
`Platform.Architecture`. -/
structure manifestEntry where
  digest : String
  platformOS : String
  platformArch : String
deriving DecidableEq, Repr

/-- A `layerEntry` (docker_image_downloader.go lines 54-57):
`MediaType`, `Digest`. -/
structure layerEntry where
  mediaType : String
  digest : String
deriving DecidableEq, Repr

/-- Errors surfaced by manifest resolution.  `platformNotFound` is the
error `"no matching platform found in manifest list"` of line 178;
the others model HTTP failures, body-decode failures and transport
errors of `getLayers`. -/
inductive RegError where
  | platformNotFound
  | httpError (status : Nat)
  | protocolError
  | netError
deriving DecidableEq, Repr

/-- Outcome of the `getLayers` HTTP request for one digest: transport
error, non-200 status, JSON decode failure, or a decoded `layersList`. -/
inductive LayersResp where
  | netFail
  | httpFail (status : Nat)
  | decodeFail
  | ok (layers : List layerEntry)
deriving DecidableEq, Repr

/-- `getLayers` (docker_image_downloader.go lines 191-222) after the
token refresh: maps the request outcome for the given digest to either
the decoded layers list or an error.  No code path of `getLayers`
produces `platformNotFound`. -/
def getLayers (resp : LayersResp) : Except RegError (List layerEntry) :=
  match resp with
  | .netFail => .error .netError
  | .httpFail s => .error (.httpError s)
  | .decodeFail => .error .protocolError
  | .ok ls => .ok ls

/-- The platform test of line 174:
`manifest.Platform.OS == runtime.GOOS && manifest.Platform.Architecture == runtime.GOARCH`. -/
def platformMatches (goos goarch : String) (m : manifestEntry) : Bool :=
  m.platformOS == goos && m.platformArch == goarch

/-- The decode-and-dispatch logic of `getDigests`
(docker_image_downloader.go lines 164-188), after a 200-status manifest
response.  Go: if the body unmarshals as a `manifestList` with
`len(manifests.Manifests) > 0`, scan the entries in order and call
`getLayers` on the first whose platform OS and architecture equal the
runtime values, or fail with `"no matching platform found in manifest
list"`; otherwise try the body as a direct `layersList`, failing with a
parse error when that decode also fails. -/
def getDigests (goos goarch : String) (fanoutDec : Option (List manifestEntry))
    (layersDec : Option (List layerEntry)) (resp : String → LayersResp) :
    Except RegError (List layerEntry) :=
  match fanoutDec with
  | some ms =>
    if 0 < ms.length then
      match ms.find? (platformMatches goos goarch) with
      | some m => getLayers (resp m.digest)
      | none => .error .platformNotFound
    else
      match layersDec with
      | some ls => .ok ls
      | none => .error .protocolError
  | none =>
    match layersDec with
    | some ls => .ok ls
    | none => .error .protocolError

/-! ## Layer download and extraction (`DownloadAndUnpackLayers` /
    `extractTarball`, docker_image_downloader.go lines 225-295)

The sandbox filesystem tree is modelled pointwise as a map from relative
path to file content, `String → Option String`.  A layer blob is a list
of tar entries `(path, content)` in archive order, produced by an oracle
`blobs : String → List (String × String)` from the layer digest (the
download of line 237).  The transient `<digest>.tar.gz` file written
into and removed from the destination directory is not modelled: it is
created and deleted within one iteration and the claims do not touch
it. -/

/-- One tar entry landing in the tree: create-or-replace at its path. -/
def fsSet (fs : String → Option String) (p c : String) : String → Option String :=
  fun q => if q = p then some c else fs q

/-- `extractTarball` (docker_image_downloader.go lines 290-295) runs
`tar -C destDir -xzf tarballPath`.  Modelled from the spec: `tar` is an
external tool not part of this repository; per the spec's Filesystem
Materializer contract its extraction makes "files and directories from
the archive overlay (create-or-replace) existing entries at the same
relative paths" — each entry of the archive is applied in order,
overwriting whatever is at its path. -/
def extractTarball (fs : String → Option String)
    (entries : List (String × String)) : String → Option String :=
  entries.foldl (fun a e => fsSet a e.1 e.2) fs

/-- `DownloadAndUnpackLayers` (docker_image_downloader.go lines 225-251),
given the already-resolved layer list: the `for _, layer := range
layers.Layers` loop downloads each layer's blob and extracts it into the
destination, one layer per iteration, in list order. -/
def DownloadAndUnpackLayers (blobs : String → List (String × String))
    (layers : List layerEntry) (fs : String → Option String) :
    String → Option String :=
  layers.foldl (fun a l => extractTarball a (blobs l.digest)) fs

/-- The content of the last entry of an archive at path `p`, if any:
this is what sequential create-or-replace extraction leaves at `p`. -/
def lastEntry : List (String × String) → String → Option String
  | [], _ => none
  | e :: rest, p =>
    match lastEntry rest p with
    | some c => some c
    | none => if e.1 = p then some e.2 else none

/-! ## Exit code handling (`RunCommand`, main.go lines 240-250)

Go `os/exec` semantics of `cmd.Wait()` for a started child, as documented
by the standard library: `Wait` returns `nil` when the child exits with
status 0; it returns an `*exec.ExitError` when the child exits with a
non-zero status **or is terminated by a signal** (both make
`ProcessState.Success()` false); `(*ExitError).ExitCode()` delegates to
`ProcessState.ExitCode()`, which "returns the exit code of the exited
process, or -1 if the process ... was terminated by a signal".  `Wait`
can also fail with an error that is not an `ExitError` (e.g. an I/O
error waiting). -/

/-- The outcome of `cmd.Wait()` as `RunCommand` observes it:
`ok` = `Wait` returned `nil`; `exitError code` = the error is an
`*exec.ExitError` whose `ExitCode()` is `code`; `otherError` = any error
that `errors.As` does not match to an `ExitError`. -/
inductive WaitResult where
  | ok
  | exitError (code : Int)
  | otherError
deriving DecidableEq, Repr

/-- How the child actually terminated. -/
inductive ChildTermination where
  | exited (code : Nat)
  | signaled (sig : Nat)
deriving DecidableEq, Repr

/-- Go `os/exec` mapping from the child's actual termination to the
`cmd.Wait()` outcome (see the section comment): normal exit 0 gives a
`nil` error, normal non-zero exit `n` gives an `ExitError` with
`ExitCode() = n`, and death by signal gives an `ExitError` with
`ExitCode() = -1`. -/
def goWait : ChildTermination → WaitResult
  | .exited 0 => .ok
  | .exited (n + 1) => .exitError (n + 1)
  | .signaled _ => .exitError (-1)

/-- The `cmd.Wait()` error handling of `RunCommand` (main.go lines
240-250): `var exitCode int` starts at 0; on error, if it is an
`ExitError` then `exitCode = exitErr.ExitCode()`, otherwise the error is
logged and `exitCode = 1`.  Returns `(exitCode, logged)`. -/
def runCommandExit : WaitResult → Int × Bool
  | .ok => (0, false)
  | .exitError c => (c, false)
  | .otherError => (1, true)

/-! ## Run trace (`main`, `NewContainerEnvironment`, `prepare`,
    `RunCommand`, `Close`; main.go of src/app)

The whole run is embedded as the sequence of events the parent process
performs, as a function of which fallible steps fail.  Control flow from
the source:

* `main` (lines 9-34): `NewContainerEnvironment(os.Args)`; on error
  `log.Fatal` (which calls `os.Exit(1)` — no deferred cleanup runs, and
  none is registered); then `code := env.RunCommand()`; then
  `env.Close()` (which calls `os.RemoveAll(env.rootPath)`); then
  `os.Exit(code)`.
* `NewContainerEnvironment` (lines 60-92): `NewDockerImageDownloader`
  (can fail, before any directory exists), then `initFS`
  (`os.MkdirTemp`), then `setupDevices` (mknod `/dev/null`), then
  `DownloadAndUnpackLayers`; each failure returns the error to `main`
  (→ `log.Fatal`), without removing an already-created directory.
* `RunCommand` (lines 199-257): `prepare` = `syscall.Chroot` →
  `syscall.Chdir("/")` → `syscall.Unshare(CLONE_NEWPID)` (failure →
  `log.Fatalf`); then `StdoutPipe`/`StderrPipe` (failure → `log.Fatalf`);
  `cmd.Start()` (failure → `log.Fatalf`); then two `go func` goroutines
  each draining one pipe with `io.ReadAll`; the parent receives from
  `stdoutCh` then `stderrCh`; then `cmd.Wait()`; then prints the
  captured bytes and returns the exit code.

`log.Fatal`/`log.Fatalf` terminate the process immediately
(`os.Exit(1)`), so a trace ending in `.logFatal` is a complete exit
path. -/

/-- Events of one run, in the parent's program order.  `spawnStdoutReader`
/ `spawnStderrReader` are the `go func` statements starting the
independent goroutine that drains the corresponding pipe to EOF with
`io.ReadAll`; `recvStdout` / `recvStderr` are the parent's channel
receives joining those drains. -/
inductive Ev where
  | createTempDir
  | setupDevicesOk
  | downloadOk
  | chrootCall
  | unshareOk
  | pipesOk
  | startChild
  | spawnStdoutReader
  | spawnStderrReader
  | recvStdout
  | recvStderr
  | waitChild
  | removeAll
  | exitProcess
  | logFatal
deriving DecidableEq, Repr

/-- Which fallible steps of the run fail.  Each field corresponds to one
error-checked call in the source, in program order. -/
structure Scen where
  downloaderInitFails : Bool
  mkdirTempFails : Bool
  setupDevicesFails : Bool
  downloadFails : Bool
  chrootFails : Bool
  chdirFails : Bool
  unshareFails : Bool
  pipeFails : Bool
  startFails : Bool
deriving DecidableEq, Repr

/-- The parent's event trace for a run under scenario `s`, read off the
control flow of `main` / `NewContainerEnvironment` / `RunCommand` /
`Close` (see the section comment).  `chrootCall` records that
`syscall.Chroot(env.rootPath)` was invoked (whether or not it
succeeds). -/
def mainTrace (s : Scen) : List Ev :=
  if s.downloaderInitFails then [.logFatal]
  else if s.mkdirTempFails then [.logFatal]
  else
    .createTempDir ::
    if s.setupDevicesFails then [.logFatal]
    else
      .setupDevicesOk ::
      if s.downloadFails then [.logFatal]
      else
        .downloadOk :: .chrootCall ::
        if s.chrootFails then [.logFatal]
        else if s.chdirFails then [.logFatal]
        else if s.unshareFails then [.logFatal]
        else
          .unshareOk ::
          if s.pipeFails then [.logFatal]
          else
            .pipesOk ::
            if s.startFails then [.logFatal]
            else
              [.startChild, .spawnStdoutReader, .spawnStderrReader,
               .recvStdout, .recvStderr, .waitChild, .removeAll,
               .exitProcess]

/-- `a` occurs strictly before the first occurrence of `b` in `tr`. -/
def occursBefore (a b : Ev) (tr : List Ev) : Bool :=
  a ∈ tr.takeWhile (fun e => e ≠ b)

/-- The all-step-succeed scenario. -/
def okScen : Scen :=
  ⟨false, false, false, false, false, false, false, false, false⟩

/-! ## Helper lemmas -/

theorem splitFirst_no_colon {s : List Char} (h : ':' ∉ s) :
    splitFirst s = none := by
  induction s with
  | nil => rfl
  | cons c cs ih =>
    simp only [List.mem_cons, not_or] at h
    simp [splitFirst, Ne.symm h.1, ih h.2]

theorem splitFirst_append {name tag : List Char} (h : ':' ∉ name) :
    splitFirst (name ++ ':' :: tag) = some (name, tag) := by
  induction name with
  | nil => rfl
  | cons c cs ih =>
    simp only [List.mem_cons, not_or] at h
    simp [splitFirst, Ne.symm h.1, ih h.2]

theorem extractTarball_apply (entries : List (String × String))
    (fs : String → Option String) (p : String) :
    extractTarball fs entries p = (lastEntry entries p).elim (fs p) some := by
  induction entries generalizing fs with
  | nil => rfl
  | cons e rest ih =>
    show extractTarball (fsSet fs e.1 e.2) rest p = _
    rw [ih]
    cases hrest : lastEntry rest p with
    | some c => simp [lastEntry, hrest]
    | none =>
      by_cases h : e.1 = p
      · simp [lastEntry, hrest, h, fsSet]
      · have h' : ¬p = e.1 := fun hp => h hp.symm
        simp [lastEntry, hrest, h, fsSet, h']

theorem getLayers_ne_platformNotFound (r : LayersResp) :
    getLayers r ≠ .error .platformNotFound := by
  cases r <;> simp [getLayers]

/-! ## Claim theorems -/

/-- C6 counterexample: the claim says that every token containing no
colon parses to the whole token with tag `"latest"`, and that a token
ending in a colon with an empty tag parses with tag `"latest"`.  Both
fail on the empty name: `NewDockerImageDownloader` rejects the empty
token `""` (which contains no colon) and the token `":"` (which ends in
a colon with an empty tag) with an error, because `parts[0] == ""`. -/
theorem C6_parse_counterexample :
    parseImageTag "".toList ≠ some ("".toList, "latest".toList) ∧
    parseImageTag ":".toList ≠ some ("".toList, "latest".toList) ∧
    parseImageTag "".toList = none ∧
    parseImageTag ":".toList = none := by
  decide

/-- C6 (amended): for every token with a non-empty name before the first
colon, parsing a colon-free token yields the whole token with tag
`"latest"`; parsing `name:tag` yields `name` and the literal `tag` when
the tag is non-empty, and `"latest"` when the tag is empty; tokens whose
name part is empty (the empty token, or a token starting with a colon)
are rejected with an error. -/
theorem C6_parse_amended (name tag : List Char) (hn : name ≠ [])
    (hc : ':' ∉ name) :
    parseImageTag name = some (name, "latest".toList) ∧
    parseImageTag (name ++ ':' :: tag) =
      some (name, if tag.isEmpty then "latest".toList else tag) ∧
    parseImageTag [] = none ∧
    parseImageTag (':' :: tag) = none := by
  refine ⟨?_, ?_, rfl, ?_⟩
  · rw [parseImageTag, splitFirst_no_colon hc]
    simp [List.isEmpty_iff, hn]
  · rw [parseImageTag, splitFirst_append hc]
    simp [List.isEmpty_iff, hn]
  · rw [parseImageTag]
    simp [splitFirst]

/-- C6 witness: the amended theorem at `name = "alpine"`,
`tag = "3.19"`. -/
theorem C6_parse_amended_witness :
    parseImageTag "alpine".toList =
      some ("alpine".toList, "latest".toList) ∧
    parseImageTag ("alpine".toList ++ ':' :: "3.19".toList) =
      some ("alpine".toList,
        if "3.19".toList.isEmpty then "latest".toList else "3.19".toList) ∧
    parseImageTag [] = none ∧
    parseImageTag (':' :: "3.19".toList) = none :=
  C6_parse_amended "alpine".toList "3.19".toList (by decide) (by decide)

/-- C7: the device-number encoding of the source, applied to major 1 and
minor 3, equals the Linux `dev_t` value that `mknod(2)` expects for the
null character device (`makedev(1, 3)`): `mkdev 1 3 = 259 =
linuxMakedev 1 3`. -/
theorem C7_mkdev_null :
    mkdev 1 3 = linuxMakedev 1 3 ∧ mkdev 1 3 = 259 := by
  decide

/-- C5: token refresh is a no-op before expiry and re-fetches exactly
once after expiry.  For every state with a non-empty token whose expiry
lies strictly in the future, `refreshToken` performs zero fetches and
returns the state unchanged (in particular it is idempotent); once the
expiry has passed (`tokenExp ≤ now`), the refresh performed before the
next authorized operation carries out exactly one fetch. -/
theorem C5_refreshToken_noop (now : Int) (st : DLState)
    (fetch : Except Unit tokenResponse) :
    (st.token ≠ [] → now < st.tokenExp →
      refreshToken now st fetch = .ok (st, 0)) ∧
    (st.tokenExp ≤ now → ∀ tr, fetch = .ok tr →
      ∃ st2, refreshToken now st fetch = .ok (st2, 1)) := by
  constructor
  · intro h1 h2
    rw [refreshToken.eq_def, if_pos ⟨h1, h2⟩]
  · intro hexp tr hfetch
    have hcond : ¬(st.token ≠ [] ∧ now < st.tokenExp) := by
      rintro ⟨-, hlt⟩
      exact absurd hlt (not_lt.mpr hexp)
    rw [refreshToken.eq_def, if_neg hcond, hfetch]
    exact ⟨_, rfl⟩

/-- C5 witness: no-op at `now = 0` on a token expiring at 5; exactly one
fetch at `now = 10` with the same state. -/
theorem C5_refreshToken_noop_witness :
    refreshToken 0 ⟨"tok".toList, 5⟩ (.ok ⟨"t2".toList, 300⟩) =
      .ok (⟨"tok".toList, 5⟩, 0) ∧
    ∃ st2, refreshToken 10 ⟨"tok".toList, 5⟩ (.ok ⟨"t2".toList, 300⟩) =
      .ok (st2, 1) :=
  ⟨(C5_refreshToken_noop 0 ⟨"tok".toList, 5⟩ (.ok ⟨"t2".toList, 300⟩)).1
      (by decide) (by decide),
   (C5_refreshToken_noop 10 ⟨"tok".toList, 5⟩ (.ok ⟨"t2".toList, 300⟩)).2
      (by decide) ⟨"t2".toList, 300⟩ rfl⟩

/-- C4: when the manifest body decodes as a (non-empty) platform fan-out
list, resolution returns the layers of an entry whose platform OS and
architecture both equal the runtime values (via the nested manifest
fetch for that entry's digest), and it fails with `platformNotFound`
exactly when the list contains no such entry. -/
theorem C4_platform_resolution (goos goarch : String)
    (ms : List manifestEntry) (layersDec : Option (List layerEntry))
    (resp : String → LayersResp) (hne : 0 < ms.length) :
    ((∃ m ∈ ms, platformMatches goos goarch m) →
      ∃ m ∈ ms, platformMatches goos goarch m ∧
        getDigests goos goarch (some ms) layersDec resp =
          getLayers (resp m.digest)) ∧
    (getDigests goos goarch (some ms) layersDec resp =
        .error .platformNotFound ↔
      ∀ m ∈ ms, ¬ platformMatches goos goarch m) := by
  have hG : getDigests goos goarch (some ms) layersDec resp =
      match ms.find? (platformMatches goos goarch) with
      | some m => getLayers (resp m.digest)
      | none => .error .platformNotFound := by
    simp only [getDigests]
    rw [if_pos hne]
  rw [hG]
  cases hfind : ms.find? (platformMatches goos goarch) with
  | some m =>
    have hmem : m ∈ ms := List.mem_of_find?_eq_some hfind
    have hmatch : platformMatches goos goarch m = true :=
      List.find?_some hfind
    constructor
    · intro _
      exact ⟨m, hmem, hmatch, rfl⟩
    · constructor
      · intro habs
        exact absurd habs (getLayers_ne_platformNotFound _)
      · intro hall
        exact absurd hmatch (by simpa using hall m hmem)
  | none =>
    have hall : ∀ x ∈ ms, ¬ platformMatches goos goarch x :=
      List.find?_eq_none.mp hfind
    constructor
    · rintro ⟨m, hmem, hmatch⟩
      exact absurd hmatch (by simpa using hall m hmem)
    · exact ⟨fun _ => by simpa using hall, fun _ => rfl⟩

/-- C4 witness: a two-entry fan-out list whose second entry matches
`linux/amd64`, and the resulting resolution equalities. -/
theorem C4_platform_resolution_witness :
    ((∃ m ∈ [manifestEntry.mk "sha256:d1" "linux" "arm64",
             manifestEntry.mk "sha256:d2" "linux" "amd64"],
        platformMatches "linux" "amd64" m) →
      ∃ m ∈ [manifestEntry.mk "sha256:d1" "linux" "arm64",
             manifestEntry.mk "sha256:d2" "linux" "amd64"],
        platformMatches "linux" "amd64" m ∧
          getDigests "linux" "amd64"
            (some [manifestEntry.mk "sha256:d1" "linux" "arm64",
                   manifestEntry.mk "sha256:d2" "linux" "amd64"])
            none (fun _ => .ok []) = getLayers ((fun _ => .ok []) m.digest)) ∧
    (getDigests "linux" "amd64"
        (some [manifestEntry.mk "sha256:d1" "linux" "arm64",
               manifestEntry.mk "sha256:d2" "linux" "amd64"])
        none (fun _ => .ok []) = .error .platformNotFound ↔
      ∀ m ∈ [manifestEntry.mk "sha256:d1" "linux" "arm64",
             manifestEntry.mk "sha256:d2" "linux" "amd64"],
        ¬ platformMatches "linux" "amd64" m) :=
  C4_platform_resolution "linux" "amd64"
    [manifestEntry.mk "sha256:d1" "linux" "arm64",
     manifestEntry.mk "sha256:d2" "linux" "amd64"]
    none (fun _ => .ok []) (by decide)

/-- C3: layers are processed one at a time, in exactly the order of the
resolved layer list (the unfolding equation shows each iteration fully
downloads and extracts its layer before the next begins), and extraction
is later-wins: applying layers `l1` then `l2`, where `l2`'s archive
holds content `c2` as its last entry at path `p`, leaves `c2` at `p` in
the resulting tree, whatever `l1` or the prior tree held there. -/
theorem C3_layers_in_order (blobs : String → List (String × String))
    (l l1 l2 : layerEntry) (ls : List layerEntry)
    (fs : String → Option String) (p c2 : String)
    (h : lastEntry (blobs l2.digest) p = some c2) :
    DownloadAndUnpackLayers blobs (l :: ls) fs =
      DownloadAndUnpackLayers blobs ls (extractTarball fs (blobs l.digest)) ∧
    DownloadAndUnpackLayers blobs [l1, l2] fs p = some c2 := by
  constructor
  · rfl
  · show extractTarball (extractTarball fs (blobs l1.digest))
      (blobs l2.digest) p = some c2
    rw [extractTarball_apply, h]
    rfl

/-- C3 witness: two layers whose archives both contain the path
`/etc/f` (`"v1"` from digest `sha256:a`, `"v2"` from digest
`sha256:b`); the resulting tree holds the second layer's version
`"v2"`. -/
theorem C3_layers_in_order_witness :
    DownloadAndUnpackLayers
        (fun d => if d = "sha256:a" then [("/etc/f", "v1")]
                  else [("/etc/f", "v2")])
        (layerEntry.mk "mt" "sha256:a" :: [layerEntry.mk "mt" "sha256:b"])
        (fun _ => none) =
      DownloadAndUnpackLayers
        (fun d => if d = "sha256:a" then [("/etc/f", "v1")]
                  else [("/etc/f", "v2")])
        [layerEntry.mk "mt" "sha256:b"]
        (extractTarball (fun _ => none)
          ((fun d => if d = "sha256:a" then [("/etc/f", "v1")]
                     else [("/etc/f", "v2")])
            (layerEntry.mk "mt" "sha256:a").digest)) ∧
    DownloadAndUnpackLayers
        (fun d => if d = "sha256:a" then [("/etc/f", "v1")]
                  else [("/etc/f", "v2")])
        [layerEntry.mk "mt" "sha256:a", layerEntry.mk "mt" "sha256:b"]
        (fun _ => none) "/etc/f" = some "v2" :=
  C3_layers_in_order
    (fun d => if d = "sha256:a" then [("/etc/f", "v1")]
              else [("/etc/f", "v2")])
    (layerEntry.mk "mt" "sha256:a") (layerEntry.mk "mt" "sha256:a")
    (layerEntry.mk "mt" "sha256:b") [layerEntry.mk "mt" "sha256:b"]
    (fun _ => none) "/etc/f" "v2" (by decide)

/-- C1 counterexample: the claim says a child killed by a signal makes
the parent exit with the fixed fallback 1 and log the event.  In Go a
signal-killed child makes `cmd.Wait()` return an `*exec.ExitError`
whose `ExitCode()` is `-1`, so `RunCommand`'s handler takes the
`ExitError` branch: the exit code is `-1`, not `1`, and nothing is
logged. -/
theorem C1_exit_counterexample :
    runCommandExit (goWait (.signaled 9)) = (-1, false) ∧
    (runCommandExit (goWait (.signaled 9))).1 ≠ 1 := by
  decide

/-- C1 (amended): when the child exits normally with code `n` the
parent's exit code is `n` and nothing is logged; when the child is
killed by a signal, `Wait` yields an `ExitError` with `ExitCode() = -1`,
so the parent's exit code is `-1` (not the fallback 1) and nothing is
logged; only a wait error that is not an `ExitError` yields the fixed
fallback exit code 1, and that event is logged. -/
theorem C1_exit_amended (n sig : Nat) :
    (runCommandExit (goWait (.exited n))).1 = n ∧
    (runCommandExit (goWait (.exited n))).2 = false ∧
    runCommandExit (goWait (.signaled sig)) = (-1, false) ∧
    runCommandExit .otherError = (1, true) := by
  cases n <;> simp [goWait, runCommandExit]

/-- C2 counterexample: the claim says the sandbox temporary directory is
recursively removed on every exit path, including sandbox construction
failure.  On the run where `DownloadAndUnpackLayers` fails (all other
steps fine), the temp directory has been created but `main` exits via
`log.Fatal` without ever calling `Close`/`os.RemoveAll`: the trace
contains `createTempDir` and no `removeAll`. -/
theorem C2_cleanup_counterexample :
    Ev.createTempDir ∈
      mainTrace ⟨false, false, false, true, false, false, false, false, false⟩ ∧
    Ev.removeAll ∉
      mainTrace ⟨false, false, false, true, false, false, false, false, false⟩ := by
  decide

/-- C2 (amended): the sandbox temporary directory is removed exactly on
the runs in which every fallible step through child start succeeds —
then `Close` runs after `RunCommand` returns, covering both normal and
abnormal child termination.  On any construction failure
(downloader init, MkdirTemp, device setup, layer download) or any
chroot/chdir/unshare/pipe/start failure, the process exits through
`log.Fatal` without removing the directory. -/
theorem C2_cleanup_amended (a b c d e f g h i : Bool) :
    (Ev.removeAll ∈ mainTrace ⟨a, b, c, d, e, f, g, h, i⟩) ↔
      (a || b || c || d || e || f || g || h || i) = false := by
  revert a b c d e f g h i
  decide

/-- C8: on every run, the filesystem root is switched (`syscall.Chroot`
is invoked) only after both device-node creation (`setupDevices`) and
the full layer extraction (`DownloadAndUnpackLayers`) have completed
successfully: in every trace containing `chrootCall`, both
`setupDevicesOk` and `downloadOk` occur strictly before it. -/
theorem C8_chroot_after_populate (a b c d e f g h i : Bool) :
    Ev.chrootCall ∈ mainTrace ⟨a, b, c, d, e, f, g, h, i⟩ →
      occursBefore .setupDevicesOk .chrootCall
          (mainTrace ⟨a, b, c, d, e, f, g, h, i⟩) = true ∧
        occursBefore .downloadOk .chrootCall
          (mainTrace ⟨a, b, c, d, e, f, g, h, i⟩) = true := by
  revert a b c d e f g h i
  decide

/-- C8 witness: the all-steps-succeed run contains `chrootCall`, and
both preparation events precede it. -/
theorem C8_chroot_after_populate_witness :
    occursBefore .setupDevicesOk .chrootCall
        (mainTrace ⟨false, false, false, false, false, false, false, false,
          false⟩) = true ∧
      occursBefore .downloadOk .chrootCall
        (mainTrace ⟨false, false, false, false, false, false, false, false,
          false⟩) = true :=
  C8_chroot_after_populate false false false false false false false false
    false (by decide)

/-- C9: in every run that reaches `cmd.Wait()` (`waitChild`), the child's
stdout and stderr pipes are each drained by its own spawned goroutine
(`spawnStdoutReader`, `spawnStderrReader`, the two `go func` statements
each running `io.ReadAll` on one pipe to EOF) — the parent performs
channel receives joining those drains rather than reading either pipe
inline — and both spawns precede both joins, and both joins precede the
wait on the child's termination. -/
theorem C9_concurrent_drains (a b c d e f g h i : Bool) :
    Ev.waitChild ∈ mainTrace ⟨a, b, c, d, e, f, g, h, i⟩ →
      Ev.spawnStdoutReader ∈ mainTrace ⟨a, b, c, d, e, f, g, h, i⟩ ∧
      Ev.spawnStderrReader ∈ mainTrace ⟨a, b, c, d, e, f, g, h, i⟩ ∧
      occursBefore .spawnStdoutReader .recvStdout
        (mainTrace ⟨a, b, c, d, e, f, g, h, i⟩) = true ∧
      occursBefore .spawnStderrReader .recvStderr
        (mainTrace ⟨a, b, c, d, e, f, g, h, i⟩) = true ∧
      occursBefore .recvStdout .waitChild
        (mainTrace ⟨a, b, c, d, e, f, g, h, i⟩) = true ∧
      occursBefore .recvStderr .waitChild
        (mainTrace ⟨a, b, c, d, e, f, g, h, i⟩) = true := by
  revert a b c d e f g h i
  decide

/-- C9 witness: the all-steps-succeed run reaches the wait, with both
reader goroutines spawned before their joins and both joins before the
wait. -/
theorem C9_concurrent_drains_witness :
    Ev.spawnStdoutReader ∈
        mainTrace ⟨false, false, false, false, false, false, false, false,
          false⟩ ∧
      Ev.spawnStderrReader ∈
        mainTrace ⟨false, false, false, false, false, false, false, false,
          false⟩ ∧
      occursBefore .spawnStdoutReader .recvStdout
        (mainTrace ⟨false, false, false, false, false, false, false, false,
          false⟩) = true ∧
      occursBefore .spawnStderrReader .recvStderr
        (mainTrace ⟨false, false, false, false, false, false, false, false,
          false⟩) = true ∧
      occursBefore .recvStdout .waitChild
        (mainTrace ⟨false, false, false, false, false, false, false, false,
          false⟩) = true ∧
      occursBefore .recvStderr .waitChild
        (mainTrace ⟨false, false, false, false, false, false, false, false,
          false⟩) = true :=
  C9_concurrent_drains false false false false false false false false false
    (by decide)

/-- C10: every registry request embeds the image name under the fixed
`library/` namespace — the token request's scope is
`repository:library/<name>:pull`, and the manifest and blob endpoints
use the path `/v2/library/<name>/...` — including when the name itself
already contains a namespace segment such as `user/repo`. -/
theorem C10_library_namespace (name ref digest : String) :
    tokenURL name =
      "https://auth.docker.io/token?service=registry.docker.io&scope=" ++
        ("repository:library/" ++ name ++ ":pull") ∧
    manifestURL name ref =
      "https://registry.hub.docker.com/v2/" ++
        ("library/" ++ name) ++ ("/manifests/" ++ ref) ∧
    blobURL name digest =
      "https://registry.hub.docker.com/v2/" ++
        ("library/" ++ name) ++ ("/blobs/" ++ digest) ∧
    tokenURL "user/repo" =
      "https://auth.docker.io/token?service=registry.docker.io&scope=repository:library/user/repo:pull" := by
  refine ⟨?_, ?_, ?_, rfl⟩ <;>
    simp only [tokenURL, manifestURL, blobURL, ← String.append_assoc] <;> rfl

end Docker
